import Mathlib

set_option maxRecDepth 8000

/-!
Verification of the classification-and-generation pipeline of the
`agent` repository: the AI categorizer with retry/fallback discipline
(`src/agents/categorizer.py`), the content generator with its section
parser and fallback bundle (`src/agents/content_generator.py`), the
orchestrator loop (`src/app.py`, `run_ai_agent`), and the record store
(`src/utils/sheets_manager.py`).

Python strings are embedded as `List Char`; Python string operations
(`strip`, `lower`, `upper`, `in`, `replace`, `split`, slicing) are
translated below as executable Lean functions mirroring their semantics
on the inputs this program uses.  The external completion service is a
parameter `svc : Nat → CallOutcome` giving the outcome of each attempt;
elapsed backoff time and service-call counts are tracked in a `Trace`.
-/

namespace Agent

/-- Embedded Python string. -/
abbrev Str := List Char

/-- Python `str.strip()`: drop whitespace on both ends. -/
def pyStrip (s : Str) : Str :=
  ((s.dropWhile Char.isWhitespace).reverse.dropWhile Char.isWhitespace).reverse

/-- Python `str.lower()` (ASCII, which is all this program compares on). -/
def pyLower (s : Str) : Str := s.map Char.toLower

/-- Python `str.upper()` (ASCII). -/
def pyUpper (s : Str) : Str := s.map Char.toUpper

/-- Python `tok in s` substring test. -/
def containsTok (tok : Str) : Str → Bool
  | [] => tok.isPrefixOf ([] : Str)
  | c :: cs => tok.isPrefixOf (c :: cs) || containsTok tok cs

/-- Worker for `replaceTok`, structurally recursive on a fuel argument
(initialised to the string length, which bounds the number of steps) so
that it evaluates by kernel reduction. -/
def replaceTokFuel (tok : Str) : Nat → Str → Str
  | 0, s => s
  | _ + 1, [] => []
  | fuel + 1, c :: cs =>
    if tok.isPrefixOf (c :: cs) && !tok.isEmpty then
      replaceTokFuel tok fuel (List.drop tok.length (c :: cs))
    else
      c :: replaceTokFuel tok fuel cs

/-- Python `s.replace(tok, '')` for a non-empty `tok`: remove all
non-overlapping occurrences, scanning left to right. -/
def replaceTok (tok s : Str) : Str := replaceTokFuel tok s.length s

/-- Python `s.split('\n')`. -/
def splitLines : Str → List Str
  | [] => [[]]
  | c :: cs =>
    if c = '\n' then [] :: splitLines cs
    else
      match splitLines cs with
      | l :: ls => (c :: l) :: ls
      | [] => [[c]]

def thinkOpen : Str := ("<think>").toList

def thinkClose : Str := ("</think>").toList

/-- Locate the first `</think>` in `s` and return the remainder after it. -/
def findClose : Str → Option Str
  | [] => none
  | c :: cs =>
    if thinkClose.isPrefixOf (c :: cs) then
      some (List.drop thinkClose.length (c :: cs))
    else findClose cs

/-- Worker for `removeThink`, structurally recursive on a fuel argument
(initialised to the string length, which bounds the number of steps). -/
def removeThinkFuel : Nat → Str → Str
  | 0, s => s
  | _ + 1, [] => []
  | fuel + 1, c :: cs =>
    if thinkOpen.isPrefixOf (c :: cs) then
      match findClose (List.drop thinkOpen.length (c :: cs)) with
      | some rest => removeThinkFuel fuel rest
      | none => c :: removeThinkFuel fuel cs
    else c :: removeThinkFuel fuel cs

/-- Python `re.sub(r'<think>.*?</think>', '', s, flags=DOTALL)`:
remove every non-overlapping leftmost-shortest `<think>…</think>` span. -/
def removeThink (s : Str) : Str := removeThinkFuel s.length s

/-! ## External completion service model -/

/-- Outcome of one call to the external completion service: a response
string, or a raised exception with message `str(e)`. -/
inductive CallOutcome where
  | ok (response : Str)
  | exn (msg : Str)

/-- Per-call observable effects: number of service invocations made and
total `time.sleep` backoff seconds. -/
structure Trace where
  calls : Nat
  sleep : Nat
deriving DecidableEq, Repr

/-- Test `"429" in error_str or "rate" in error_str.lower()`
(`categorizer.py:57`, `content_generator.py:64`). -/
def isRateLimit (msg : Str) : Bool :=
  containsTok (("429").toList) msg || containsTok (("rate").toList) (pyLower msg)

/-! ## Categorizer (`src/agents/categorizer.py`) -/

def labelAC : Str := ("Admit Card").toList

def labelJN : Str := ("Job Notification").toList

def labelRes : Str := ("Result").toList

def labelNR : Str := ("Not Relevant").toList

/-- List `self.categories` (`categorizer.py:18`). -/
def categoriesL : List Str := [labelAC, labelJN, labelRes, labelNR]

/-- The category-extraction loop of `_clean_deepseek_response`
(`categorizer.py:134`): first category whose lower-case form occurs in
the lower-cased response. -/
def extractCat : List Str → Str → Option Str
  | [], _ => none
  | c :: cs, r => if containsTok (pyLower c) (pyLower r) then some c else extractCat cs r

/-- Model of `_clean_deepseek_response` (`categorizer.py:127`): drop
`<think>…</think>` spans, strip, then extract a known category if one
occurs, else return the cleaned text. -/
def clean_deepseek_response (r : Str) : Str :=
  let r2 := pyStrip (removeThink r)
  (extractCat categoriesL r2).getD r2

/-- Model of `_validate_category` (`categorizer.py:140`). -/
def validate_category (category : Str) : Str :=
  let c := pyStrip category
  if categoriesL.contains c then c
  else
    let cl := pyLower c
    if containsTok (("admit").toList) cl || containsTok (("hall ticket").toList) cl then
      labelAC
    else if containsTok (("job").toList) cl || containsTok (("notification").toList) cl
        || containsTok (("vacancy").toList) cl || containsTok (("recruitment").toList) cl then
      labelJN
    else if containsTok (("result").toList) cl || containsTok (("merit").toList) cl then
      labelRes
    else
      labelNR

def acKeywords : List Str :=
  [("admit card").toList, ("hall ticket").toList, ("exam date").toList,
   ("download link").toList]

def jobKeywords : List Str :=
  [("recruitment").toList, ("notification").toList, ("vacancy").toList,
   ("hiring").toList, ("posts announced").toList, ("apply online").toList]

def resultKeywords : List Str :=
  [("result").toList, ("merit list").toList, ("selection list").toList,
   ("scorecard").toList, ("declared").toList]

def jobOrgs : List Str :=
  [("sbi").toList, ("upsc").toList, ("ssc").toList, ("rrb").toList,
   ("ibps").toList, ("lic").toList, ("aiims").toList, ("isro").toList,
   ("drdo").toList, ("army").toList, ("navy").toList, ("air force").toList,
   ("police").toList, ("railway").toList, ("bank").toList]

/-- Model of `_fallback_categorize` (`categorizer.py:76`): deterministic keyword
classifier over the lower-cased input. -/
def fallback_categorize (trend_text : Str) : Str :=
  let trend_lower := pyLower trend_text
  if acKeywords.any (fun k => containsTok k trend_lower) then labelAC
  else if jobKeywords.any (fun k => containsTok k trend_lower) then labelJN
  else if resultKeywords.any (fun k => containsTok k trend_lower) then labelRes
  else if jobOrgs.any (fun k => containsTok k trend_lower) then labelJN
  else labelNR

/-- Constant `base_delay = 2` (`categorizer.py:24`, `content_generator.py:26`). -/
def baseDelay : Nat := 2

/-- The retry loop of `categorize` (`categorizer.py:26-74`), indexed by
the list of remaining attempt numbers (initially `[0, 1, 2]`).  On a
successful call the cleaned, validated category is returned; a
rate-limit exception sleeps `base_delay * 2 ** attempt` and retries
while attempts remain; any other exception, or exhaustion of the
attempts, yields `_fallback_categorize`. -/
def catLoop (svc : Nat → CallOutcome) (trend_text : Str) :
    List Nat → Trace → Str × Trace
  | [], tr => (fallback_categorize trend_text, tr)
  | a :: rest, tr =>
    let tr1 : Trace := ⟨tr.calls + 1, tr.sleep⟩
    match svc a with
    | .ok resp =>
      (validate_category (clean_deepseek_response (pyStrip resp)), tr1)
    | .exn msg =>
      if isRateLimit msg then
        if rest.isEmpty then (fallback_categorize trend_text, tr1)
        else catLoop svc trend_text rest ⟨tr1.calls, tr1.sleep + baseDelay * 2 ^ a⟩
      else (fallback_categorize trend_text, tr1)

/-- Model of `AICategorizer.categorize` (`categorizer.py:21`), with the external
service abstracted as the per-attempt outcome function `svc`. -/
def categorize (svc : Nat → CallOutcome) (trend_text : Str) : Str × Trace :=
  catLoop svc trend_text (List.range 3) ⟨0, 0⟩

/-! ## Content generator (`src/agents/content_generator.py`) -/

/-- The four-section content bundle (the Python dict with keys
`instagram`, `blog`, `youtube`, `thumbnail`). -/
structure Content where
  instagram : Str
  blog : Str
  youtube : Str
  thumbnail : Str
deriving DecidableEq, Repr

/-- Section keys of the bundle. -/
inductive SecKey where
  | instagram
  | blog
  | youtube
  | thumbnail
deriving DecidableEq, Repr

def getSec : SecKey → Content → Str
  | .instagram, c => c.instagram
  | .blog, c => c.blog
  | .youtube, c => c.youtube
  | .thumbnail, c => c.thumbnail

def setSec : SecKey → Str → Content → Content
  | .instagram, v, c => { c with instagram := v }
  | .blog, v, c => { c with blog := v }
  | .youtube, v, c => { c with youtube := v }
  | .thumbnail, v, c => { c with thumbnail := v }

def hdrIG : Str := ("INSTAGRAM_POST:").toList

def hdrBL : Str := ("BLOG_DRAFT:").toList

def hdrYT : Str := ("YOUTUBE_SCRIPT:").toList

def hdrTN : Str := ("THUMBNAIL_IDEA:").toList

/-- The `sections` dict of `parse_content` (`content_generator.py:142`),
in insertion order. -/
def sectionsL : List (Str × SecKey) :=
  [(hdrIG, .instagram), (hdrBL, .blog), (hdrYT, .youtube), (hdrTN, .thumbnail)]

/-- The header-matching loop of `parse_content` (`content_generator.py:157`):
the first header whose upper-case form starts the upper-cased stripped
line, together with the inline remainder after the header. -/
def findHeaderIn : List (Str × SecKey) → Str → Option (SecKey × Str)
  | [], _ => none
  | (h, k) :: rest, t =>
    if (pyUpper h).isPrefixOf (pyUpper t) then some (k, List.drop h.length t)
    else findHeaderIn rest t

def findHeader (t : Str) : Option (SecKey × Str) := findHeaderIn sectionsL t

/-- Separator-line test (`content_generator.py:170`). -/
def sepLine (t : Str) : Bool :=
  (("---").toList).isPrefixOf t || (("===").toList).isPrefixOf t
    || (("***").toList).isPrefixOf t

/-- Appending a stripped line to a section accumulator
(`content_generator.py:173-176`). -/
def joinAcc (acc t : Str) : Str := if acc.isEmpty then t else acc ++ ' ' :: t

/-- One iteration of the line scan of `parse_content`
(`content_generator.py:152-176`): state is (current section, bundle). -/
def parseStep (st : Option SecKey × Content) (line : Str) : Option SecKey × Content :=
  let t := pyStrip line
  match findHeader t with
  | some (k, rest) =>
    let a := pyStrip rest
    (some k, if a.isEmpty then st.2 else setSec k a st.2)
  | none =>
    match st.1 with
    | some k =>
      if t.isEmpty then st
      else if sepLine t then st
      else (some k, setSec k (joinAcc (getSec k st.2) t) st.2)
    | none => st

def headerToks : List Str := [hdrIG, hdrBL, hdrYT, hdrTN]

/-- The per-section cleanup of `parse_content` (`content_generator.py:179-183`):
strip, then remove each header token and re-strip. -/
def cleanSec (t : Str) : Str :=
  headerToks.foldl (fun x h => pyStrip (replaceTok h x)) (pyStrip t)

def emptyContent : Content := ⟨[], [], [], []⟩

/-- The text accumulated for one active section over a run of body
lines: empty and separator-prefixed lines are skipped, every other
stripped line is space-joined onto the accumulator — the specification
of what the scan loop of `parse_content` does between two headers. -/
def foldBody (acc : Str) : List Str → Str
  | [] => acc
  | l :: ls =>
    let t := pyStrip l
    if t.isEmpty then foldBody acc ls
    else if sepLine t then foldBody acc ls
    else foldBody (joinAcc acc t) ls

/-- Model of `ContentGenerator.parse_content` (`content_generator.py:133`). -/
def parse_content (content_text : Str) : Content :=
  let scanned := ((splitLines content_text).foldl parseStep (none, emptyContent)).2
  ⟨cleanSec scanned.instagram, cleanSec scanned.blog,
   cleanSec scanned.youtube, cleanSec scanned.thumbnail⟩

/-- Check `not any(parsed_content.values())` (`content_generator.py:54`). -/
def allEmptyB (c : Content) : Bool :=
  c.instagram.isEmpty && c.blog.isEmpty && c.youtube.isEmpty && c.thumbnail.isEmpty

/-- Lookup `hashtags_map.get(category, ...)` (`content_generator.py:189-201`). -/
def hashtagsFor (category : Str) : Str :=
  if category = labelAC then
    ("#AdmitCard #HallTicket #ExamUpdate #JobYaari #SarkariExam").toList
  else if category = labelJN then
    ("#JobAlert #GovernmentJobs #Vacancy #Recruitment #JobYaari").toList
  else if category = labelRes then
    ("#Result #MeritList #ExamResult #JobYaari #SarkariResult").toList
  else ("#GovernmentJobs #JobUpdate #JobYaari").toList

/-- Lookup `link_map.get(category, ...)` (`content_generator.py:195-202`). -/
def linkTextFor (category : Str) : Str :=
  if category = labelAC then ("Download Admit Card: [Official Link]").toList
  else if category = labelJN then ("Apply Online: [Official Link]").toList
  else if category = labelRes then ("Check Result: [Official Link]").toList
  else ("Visit: [Official Link]").toList

/-- Model of `ContentGenerator.get_fallback_content` (`content_generator.py:187`). -/
def get_fallback_content (trend category : Str) : Content :=
  let hashtags := hashtagsFor category
  let link_text := linkTextFor category
  { instagram :=
      ("🎯 ").toList ++ trend
        ++ ("\n\nImportant update for government job aspirants! 📝\n").toList
        ++ link_text ++ ("\n\n").toList ++ hashtags ++ (" 🔥").toList
    blog :=
      ("📢 Latest Update: ").toList ++ trend
        ++ ("\n\nThis is an important development for job seekers across India. ").toList
        ++ category
        ++ (" notifications are crucial for candidates preparing for government sector careers.\n\n🔑 Key Points:\n• Important update for aspirants\n• Check official notification for eligibility criteria\n• ").toList
        ++ link_text
        ++ ("\n• Don\x27t miss important deadlines\n\nStay updated with JobYaari for more government job notifications and exam updates! 🚀\n\n").toList
        ++ link_text
    youtube :=
      ("[OPENING - 0:00-0:05]\n🔔 Big breaking news for government job seekers!\n\n[MAIN CONTENT - 0:05-0:25]\n").toList
        ++ trend
        ++ ("\n\n📋 Important Details:\n- Check eligibility criteria\n- ").toList
        ++ link_text
        ++ ("\n- Note all important dates\n\n[CALL TO ACTION - 0:25-0:30]\n👍 Like, Share & Subscribe for daily job updates!\nVisit JobYaari.com for complete details!").toList
    thumbnail :=
      ("🎨 THUMBNAIL DESIGN:\n\nBackground: Bold YELLOW with RED accent border\n\nMain Text (White, Bold, 72pt): \"").toList
        ++ pyUpper category
        ++ ("\"\nSubtitle (Black, 48pt): ").toList
        ++ trend.take 30
        ++ ("...\n\nVisual Elements:\n- Government building silhouette (bottom)\n- Red \"NEW\" badge (top-right corner)\n- Urgency indicator: Clock icon\n- Professional, clean design for Indian audience\n\nLayout: Center-aligned with strong contrast").toList }

/-- Model of `_clean_deepseek_response` of the generator (`content_generator.py:79`):
drop `<think>…</think>` spans and strip (no category extraction). -/
def cleanGen (r : Str) : Str := pyStrip (removeThink r)

/-- The retry loop of `generate_content` (`content_generator.py:28-77`),
indexed by the remaining attempt numbers. -/
def genLoop (svc : Nat → CallOutcome) (trend category : Str) :
    List Nat → Trace → Content × Trace
  | [], tr => (get_fallback_content trend category, tr)
  | a :: rest, tr =>
    let tr1 : Trace := ⟨tr.calls + 1, tr.sleep⟩
    match svc a with
    | .ok resp =>
      let parsed := parse_content (cleanGen resp)
      if allEmptyB parsed then (get_fallback_content trend category, tr1)
      else (parsed, tr1)
    | .exn msg =>
      if isRateLimit msg then
        if rest.isEmpty then (get_fallback_content trend category, tr1)
        else genLoop svc trend category rest ⟨tr1.calls, tr1.sleep + baseDelay * 2 ^ a⟩
      else (get_fallback_content trend category, tr1)

/-- Model of `ContentGenerator.generate_content` (`content_generator.py:20`): skip
the external service entirely when the trend is empty or the category is
`Not Relevant`; otherwise run the retry loop. -/
def generate_content (svc : Nat → CallOutcome) (trend category : Str) : Content × Trace :=
  if trend.isEmpty || category = labelNR then
    (get_fallback_content trend category, ⟨0, 0⟩)
  else genLoop svc trend category (List.range 3) ⟨0, 0⟩

/-! ## Record store (`src/utils/sheets_manager.py`) -/

/-- One stored row (`add_row`, `sheets_manager.py:98-107`). -/
structure Row where
  timestamp : Str
  trend : Str
  category : Str
  instagram_post : Str
  blog_draft : Str
  youtube_script : Str
  thumbnail_idea : Str
  status : Str
deriving DecidableEq, Repr

/-- Store state: the CSV rows and, when Google Sheets is configured, the
trend strings of column B of the sheet (`none` = sheets disabled). -/
structure StoreState where
  csv : List Row
  sheet : Option (List Str)
deriving DecidableEq, Repr

/-- Whether the fallible pandas / gspread operations of one `add_row`
call succeed (an exception inside either helper is caught and turned
into `False`). -/
structure StoreIO where
  readOk : Bool
  writeOk : Bool
  apiOk : Bool
deriving DecidableEq, Repr

/-- Model of `_add_to_csv` (`sheets_manager.py:120`): a read failure or a write
failure yields `False`; an exact-trend duplicate yields `False`;
otherwise the row is appended. -/
def add_to_csv (readOk writeOk : Bool) (csv : List Row) (r : Row) : Bool × List Row :=
  if !readOk then (false, csv)
  else if (csv.map Row.trend).contains r.trend then (false, csv)
  else if !writeOk then (false, csv)
  else (true, csv ++ [r])

/-- Model of `_add_to_google_sheets` (`sheets_manager.py:143`): `False` when the
sheet is not configured, the API call fails, or the trend is already in
column B. -/
def add_to_sheets (apiOk : Bool) (sheet : Option (List Str)) (r : Row) :
    Bool × Option (List Str) :=
  match sheet with
  | none => (false, none)
  | some ts =>
    if !apiOk then (false, some ts)
    else if ts.contains r.trend then (false, some ts)
    else (true, some (ts ++ [r.trend]))

/-- Model of `GoogleSheetsManager.add_row` (`sheets_manager.py:95`): stamp the
row, try CSV and Google Sheets, succeed if either write succeeded. -/
def add_row (io : StoreIO) (ts : Str) (st : StoreState) (data : Row) :
    Bool × StoreState :=
  let r : Row := { data with timestamp := ts }
  let csvRes := add_to_csv io.readOk io.writeOk st.csv r
  let sheetRes := add_to_sheets io.apiOk st.sheet r
  (csvRes.1 || sheetRes.1, ⟨csvRes.2, sheetRes.2⟩)

/-! ## Orchestrator (`src/app.py`, `run_ai_agent`) -/

/-- Run statistics and saved results accumulated by the loop
(`app.py:109-113`). -/
structure RunState where
  processed : Nat
  relevant : Nat
  skipped : Nat
  errors : Nat
  results : List Row
deriving DecidableEq, Repr

def initRunState : RunState := ⟨0, 0, 0, 0, []⟩

/-- The `sheet_data` dict built for one relevant item (`app.py:160-168`). -/
def mkRow (trend category : Str) (content : Content) : Row :=
  { timestamp := []
    trend := trend
    category := category
    instagram_post := content.instagram
    blog_draft := content.blog
    youtube_script := content.youtube
    thumbnail_idea := content.thumbnail
    status := ("Pending Review").toList }

/-- One iteration of the orchestrator loop (`app.py:122-186`).  The three
collaborators are oracles that either return a value or raise
(`Except`): the `try`/`except` of the loop body catches any raise,
counts it in `errors`, and moves on, keeping the mutations already
performed. -/
def stepItem (cat : Str → Except Str Str) (gen : Str → Str → Except Str Content)
    (save : Row → Except Str Bool) (st : RunState) (trend : Str) : RunState :=
  match cat trend with
  | .error _ => { st with errors := st.errors + 1 }
  | .ok category =>
    if category ≠ labelNR then
      let st1 := { st with relevant := st.relevant + 1 }
      match gen trend category with
      | .error _ => { st1 with errors := st1.errors + 1 }
      | .ok content =>
        let row := mkRow trend category content
        match save row with
        | .error _ => { st1 with errors := st1.errors + 1 }
        | .ok true =>
          { st1 with results := st1.results ++ [row], processed := st1.processed + 1 }
        | .ok false =>
          { st1 with errors := st1.errors + 1, processed := st1.processed + 1 }
    else
      { st with skipped := st.skipped + 1, processed := st.processed + 1 }

/-- The orchestrator loop over a batch of trends. -/
def runLoop (cat : Str → Except Str Str) (gen : Str → Str → Except Str Content)
    (save : Row → Except Str Bool) (st : RunState) (trends : List Str) : RunState :=
  trends.foldl (stepItem cat gen save) st

/-- Constant `BATCH_SIZE = 3` (`app.py:116`). -/
def BATCH_SIZE : Nat := 3

/-- Model of the `run_ai_agent` processing phase (`app.py:115-186`): cap to the first
`BATCH_SIZE` trends and run the loop. -/
def run_ai_agent (cat : Str → Except Str Str) (gen : Str → Str → Except Str Content)
    (save : Row → Except Str Bool) (trends : List Str) : RunState :=
  runLoop cat gen save initRunState (trends.take BATCH_SIZE)

/-- Pointwise addition of run statistics; result lists concatenate. -/
def addState (s1 s2 : RunState) : RunState :=
  ⟨s1.processed + s2.processed, s1.relevant + s2.relevant, s1.skipped + s2.skipped,
   s1.errors + s2.errors, s1.results ++ s2.results⟩

/-- The contribution of a single item to the run statistics: the effect
of one loop iteration started from zeroed counters. -/
def itemStats (cat : Str → Except Str Str) (gen : Str → Str → Except Str Content)
    (save : Row → Except Str Bool) (trend : Str) : RunState :=
  stepItem cat gen save initRunState trend

/-! ## Concrete services and inputs used in witnesses -/

/-- Predicate: `s` is one of the four labels. -/
def isLabel (s : Str) : Prop :=
  s = labelAC ∨ s = labelJN ∨ s = labelRes ∨ s = labelNR

/-- A service whose every call raises a non-rate-limit exception. -/
def svcErr : Nat → CallOutcome := fun _ => .exn (("service unavailable").toList)

/-- A service whose every call raises a rate-limit (429) exception. -/
def svcRL : Nat → CallOutcome :=
  fun _ => .exn (("Error code: 429 - rate limit exceeded").toList)

/-- A service that always succeeds with a response containing no section
headers (so parsing extracts nothing). -/
def svcEmptyResp : Nat → CallOutcome :=
  fun _ => .ok (("nothing structured here").toList)

def exAC : Str := ("SBI PO admit card 2025 release date").toList

def exJN : Str := ("UPSC recruitment 2025 notification").toList

def exRes : Str := ("SSC result 2025 declared").toList

def exNR : Str := ("iPhone 15 price drop").toList

/-- An exception-free categorizer oracle backed by the keyword fallback. -/
def catOracle : Str → Except Str Str := fun t => .ok (fallback_categorize t)

/-- An exception-free generator oracle backed by the fallback bundle. -/
def genOracle : Str → Str → Except Str Content :=
  fun t c => .ok (get_fallback_content t c)

/-- A store oracle whose append always reports failure/duplicate. -/
def saveFalse : Row → Except Str Bool := fun _ => .ok false

def rowA : Row :=
  ⟨[], ("SSC CGL 2025 vacancy announced").toList, labelJN, [], [], [], [],
   ("Pending Review").toList⟩

def rowB : Row :=
  ⟨[], ("SSC CGL 2025 recruitment notification out").toList, labelJN, [], [], [], [],
   ("Pending Review").toList⟩

/-- A synthetic completion response with all four section headers in a
non-prompted order, inline content, separator lines, and a body line
containing an embedded header token (which the cleanup phase strips). -/
def c5resp : Str :=
  ("YOUTUBE_SCRIPT: Hook line\n===\nTHUMBNAIL_IDEA:\nBold yellow banner\nINSTAGRAM_POST: hello\nsee BLOG_DRAFT: note\n---\nBLOG_DRAFT:\nThe details follow.\nRead carefully.").toList

/-! ## C1: classifier totality -/

theorem fallback_categorize_isLabel (t : Str) : isLabel (fallback_categorize t) := by
  unfold fallback_categorize isLabel
  dsimp only
  split_ifs <;> simp

theorem validate_category_isLabel (c : Str) : isLabel (validate_category c) := by
  unfold validate_category isLabel
  dsimp only
  by_cases h : categoriesL.contains (pyStrip c) = true
  · rw [if_pos h]
    have hm : pyStrip c ∈ categoriesL := by simpa [List.contains] using h
    simp only [categoriesL, List.mem_cons, List.not_mem_nil, or_false] at hm
    tauto
  · rw [if_neg h]
    split_ifs <;> simp

/-- Unfolding lemma: a successful call returns the validated cleaned
response. -/
theorem catLoop_cons_ok (svc : Nat → CallOutcome) (t : Str) (a : Nat) (rest : List Nat)
    (tr : Trace) (resp : Str) (h : svc a = .ok resp) :
    catLoop svc t (a :: rest) tr
      = (validate_category (clean_deepseek_response (pyStrip resp)),
          ⟨tr.calls + 1, tr.sleep⟩) := by
  simp only [catLoop, h]

/-- Unfolding lemma: an exception either retries with backoff (rate
limit, attempts remaining) or falls back to the keyword classifier. -/
theorem catLoop_cons_exn (svc : Nat → CallOutcome) (t : Str) (a : Nat) (rest : List Nat)
    (tr : Trace) (msg : Str) (h : svc a = .exn msg) :
    catLoop svc t (a :: rest) tr
      = (if isRateLimit msg then
          if rest.isEmpty then (fallback_categorize t, ⟨tr.calls + 1, tr.sleep⟩)
          else catLoop svc t rest ⟨tr.calls + 1, tr.sleep + baseDelay * 2 ^ a⟩
        else (fallback_categorize t, ⟨tr.calls + 1, tr.sleep⟩)) := by
  simp only [catLoop, h]

theorem catLoop_isLabel (svc : Nat → CallOutcome) (t : Str) :
    ∀ (attempts : List Nat) (tr : Trace), isLabel (catLoop svc t attempts tr).1 := by
  intro attempts
  induction attempts with
  | nil => intro tr; exact fallback_categorize_isLabel t
  | cons a rest ih =>
    intro tr
    cases hsvc : svc a with
    | ok resp =>
      rw [catLoop_cons_ok svc t a rest tr resp hsvc]
      dsimp only
      exact validate_category_isLabel _
    | exn msg =>
      rw [catLoop_cons_exn svc t a rest tr msg hsvc]
      by_cases hrl : isRateLimit msg = true
      · rw [if_pos hrl]
        by_cases hre : rest.isEmpty = true
        · rw [if_pos hre]
          exact fallback_categorize_isLabel t
        · rw [if_neg hre]
          exact ih _
      · rw [if_neg hrl]
        exact fallback_categorize_isLabel t

/-- C1: for every input string and every behaviour of the external
completion service (success with any response, rate-limit errors, other
exceptions, in any per-attempt combination), `categorize` returns one of
the four labels; in this total embedding every control path of
`AICategorizer.categorize` ends in an ordinary return, so no exception
reaches the caller. -/
theorem classify_total (svc : Nat → CallOutcome) (text : Str) :
    isLabel (categorize svc text).1 :=
  catLoop_isLabel svc text (List.range 3) ⟨0, 0⟩

/-! ## C2: retry bound and total backoff delay -/

/-- Unfolding lemma for the generator retry loop, successful call. -/
theorem genLoop_cons_ok (svc : Nat → CallOutcome) (t c : Str) (a : Nat) (rest : List Nat)
    (tr : Trace) (resp : Str) (h : svc a = .ok resp) :
    genLoop svc t c (a :: rest) tr
      = (if allEmptyB (parse_content (cleanGen resp)) then
          (get_fallback_content t c, ⟨tr.calls + 1, tr.sleep⟩)
        else (parse_content (cleanGen resp), ⟨tr.calls + 1, tr.sleep⟩)) := by
  simp only [genLoop, h]

/-- Unfolding lemma for the generator retry loop, exception. -/
theorem genLoop_cons_exn (svc : Nat → CallOutcome) (t c : Str) (a : Nat) (rest : List Nat)
    (tr : Trace) (msg : Str) (h : svc a = .exn msg) :
    genLoop svc t c (a :: rest) tr
      = (if isRateLimit msg then
          if rest.isEmpty then (get_fallback_content t c, ⟨tr.calls + 1, tr.sleep⟩)
          else genLoop svc t c rest ⟨tr.calls + 1, tr.sleep + baseDelay * 2 ^ a⟩
        else (get_fallback_content t c, ⟨tr.calls + 1, tr.sleep⟩)) := by
  simp only [genLoop, h]

theorem range_three : List.range 3 = [0, 1, 2] := by decide

/-- C2 counterexample: against a service whose every call raises a
rate-limit error, `categorize` makes exactly 3 attempts and returns
the fallback, but the total backoff slept before returning is
`base_delay * (1 + 2) = 6` seconds — the loop sleeps only after the
first two failed attempts and returns immediately after the third — so
the claimed lower bound of `base_delay * (1 + 2 + 4) = 14` seconds is
false. -/
theorem retry_bound_counterexample :
    (∀ n, ∃ m, svcRL n = .exn m ∧ isRateLimit m = true)
    ∧ (categorize svcRL exRes).2.calls = 3
    ∧ (categorize svcRL exRes).2.sleep = 6
    ∧ ¬(14 ≤ (categorize svcRL exRes).2.sleep) := by
  refine ⟨fun n => ⟨_, rfl, by decide⟩, by decide, by decide, by decide⟩

/-- C2 (amended): if the external completion service fails with a
rate-limited condition on every call, then `categorize` and likewise
`generate_content` (on a non-empty trend with a relevant category) make
exactly 3 attempts against the service, then return the deterministic
fallback output, and the total elapsed backoff delay before returning is
`base_delay * (1 + 2)`, i.e. 6 seconds for `base_delay = 2` (the loop
sleeps `2s` and `4s` after the first two failures and returns fallback
immediately on the third). -/
theorem retry_bound_amended (svc : Nat → CallOutcome) (t c : Str)
    (hRL : ∀ n, ∃ m, svc n = .exn m ∧ isRateLimit m = true)
    (ht : t ≠ []) (hc : c ≠ labelNR) :
    categorize svc t = (fallback_categorize t, ⟨3, baseDelay * (1 + 2)⟩)
    ∧ generate_content svc t c = (get_fallback_content t c, ⟨3, baseDelay * (1 + 2)⟩) := by
  obtain ⟨m0, hm0, hr0⟩ := hRL 0
  obtain ⟨m1, hm1, hr1⟩ := hRL 1
  obtain ⟨m2, hm2, hr2⟩ := hRL 2
  constructor
  · show catLoop svc t (List.range 3) ⟨0, 0⟩ = _
    rw [range_three]
    rw [catLoop_cons_exn svc t 0 [1, 2] ⟨0, 0⟩ m0 hm0, if_pos hr0,
        if_neg (by decide : ¬(([1, 2] : List Nat).isEmpty = true))]
    rw [catLoop_cons_exn svc t 1 [2] _ m1 hm1, if_pos hr1,
        if_neg (by decide : ¬(([2] : List Nat).isEmpty = true))]
    rw [catLoop_cons_exn svc t 2 [] _ m2 hm2, if_pos hr2,
        if_pos (by decide : (([] : List Nat).isEmpty = true))]
    simp [baseDelay]
  · show (if t.isEmpty || c = labelNR then _ else _) = _
    rw [if_neg (by simp [ht, hc])]
    rw [range_three]
    rw [genLoop_cons_exn svc t c 0 [1, 2] ⟨0, 0⟩ m0 hm0, if_pos hr0,
        if_neg (by decide : ¬(([1, 2] : List Nat).isEmpty = true))]
    rw [genLoop_cons_exn svc t c 1 [2] _ m1 hm1, if_pos hr1,
        if_neg (by decide : ¬(([2] : List Nat).isEmpty = true))]
    rw [genLoop_cons_exn svc t c 2 [] _ m2 hm2, if_pos hr2,
        if_pos (by decide : (([] : List Nat).isEmpty = true))]
    simp [baseDelay]

/-- Witness for C2 (amended) at a concrete always-rate-limited service. -/
theorem retry_bound_amended_witness :
    categorize svcRL exRes = (fallback_categorize exRes, ⟨3, baseDelay * (1 + 2)⟩)
    ∧ generate_content svcRL exRes labelRes
        = (get_fallback_content exRes labelRes, ⟨3, baseDelay * (1 + 2)⟩) :=
  retry_bound_amended svcRL exRes labelRes (fun n => ⟨_, rfl, by decide⟩)
    (by decide) (by decide)

/-! ## C3: keyword fallback -/

/-- When every service call raises, `categorize` returns exactly the
keyword fallback. -/
theorem catLoop_exn_fallback (svc : Nat → CallOutcome) (t : Str)
    (hE : ∀ n, ∃ m, svc n = .exn m) :
    ∀ (attempts : List Nat) (tr : Trace),
      (catLoop svc t attempts tr).1 = fallback_categorize t := by
  intro attempts
  induction attempts with
  | nil => intro tr; rfl
  | cons a rest ih =>
    intro tr
    obtain ⟨m, hm⟩ := hE a
    rw [catLoop_cons_exn svc t a rest tr m hm]
    by_cases hrl : isRateLimit m = true
    · rw [if_pos hrl]
      by_cases hre : rest.isEmpty = true
      · rw [if_pos hre]
      · rw [if_neg hre]
        exact ih _
    · rw [if_neg hrl]

/-- C3: with the external service erroring, classification is the
deterministic keyword fallback, which scans the lower-cased input for
admit-card terms, then job/recruitment terms, then result terms, in that
priority order, defaults to `Job Notification` when none match but a
known organization token is present, and otherwise returns
`Not Relevant`; the four example inputs classify as claimed. -/
theorem keyword_fallback_correct :
    (∀ (svc : Nat → CallOutcome) (t : Str), (∀ n, ∃ m, svc n = .exn m) →
        (categorize svc t).1 = fallback_categorize t)
    ∧ (∀ t : Str,
        (acKeywords.any (fun k => containsTok k (pyLower t)) = true →
          fallback_categorize t = labelAC)
        ∧ (acKeywords.any (fun k => containsTok k (pyLower t)) = false →
            jobKeywords.any (fun k => containsTok k (pyLower t)) = true →
            fallback_categorize t = labelJN)
        ∧ (acKeywords.any (fun k => containsTok k (pyLower t)) = false →
            jobKeywords.any (fun k => containsTok k (pyLower t)) = false →
            resultKeywords.any (fun k => containsTok k (pyLower t)) = true →
            fallback_categorize t = labelRes)
        ∧ (acKeywords.any (fun k => containsTok k (pyLower t)) = false →
            jobKeywords.any (fun k => containsTok k (pyLower t)) = false →
            resultKeywords.any (fun k => containsTok k (pyLower t)) = false →
            jobOrgs.any (fun k => containsTok k (pyLower t)) = true →
            fallback_categorize t = labelJN)
        ∧ (acKeywords.any (fun k => containsTok k (pyLower t)) = false →
            jobKeywords.any (fun k => containsTok k (pyLower t)) = false →
            resultKeywords.any (fun k => containsTok k (pyLower t)) = false →
            jobOrgs.any (fun k => containsTok k (pyLower t)) = false →
            fallback_categorize t = labelNR))
    ∧ (categorize svcErr exAC).1 = labelAC
    ∧ (categorize svcErr exJN).1 = labelJN
    ∧ (categorize svcErr exRes).1 = labelRes
    ∧ (categorize svcErr exNR).1 = labelNR := by
  refine ⟨?_, ?_, by decide, by decide, by decide, by decide⟩
  · intro svc t hE
    exact catLoop_exn_fallback svc t hE (List.range 3) ⟨0, 0⟩
  · intro t
    unfold fallback_categorize
    dsimp only
    refine ⟨?_, ?_, ?_, ?_, ?_⟩
    · intro h1
      rw [if_pos h1]
    · intro h1 h2
      rw [if_neg (by simp [h1]), if_pos h2]
    · intro h1 h2 h3
      rw [if_neg (by simp [h1]), if_neg (by simp [h2]), if_pos h3]
    · intro h1 h2 h3 h4
      rw [if_neg (by simp [h1]), if_neg (by simp [h2]), if_neg (by simp [h3]), if_pos h4]
    · intro h1 h2 h3 h4
      rw [if_neg (by simp [h1]), if_neg (by simp [h2]), if_neg (by simp [h3]),
          if_neg (by simp [h4])]

/-- Witness for C3 at concrete inputs. -/
theorem keyword_fallback_witness :
    (categorize svcErr exNR).1 = fallback_categorize exNR
    ∧ fallback_categorize exAC = labelAC :=
  ⟨keyword_fallback_correct.1 svcErr exNR (fun n => ⟨_, rfl⟩),
   (keyword_fallback_correct.2.1 exAC).1 (by decide)⟩

/-! ## C4: content totality -/

theorem get_fallback_content_instagram_ne_nil (t c : Str) :
    (get_fallback_content t c).instagram ≠ [] := by
  unfold get_fallback_content
  dsimp only
  rw [show ("🎯 ").toList = ['🎯', ' '] from rfl]
  simp

theorem allEmptyB_fallback (t c : Str) :
    allEmptyB (get_fallback_content t c) = false := by
  have h := get_fallback_content_instagram_ne_nil t c
  unfold allEmptyB
  rcases he : (get_fallback_content t c).instagram with _ | ⟨x, xs⟩
  · exact absurd he h
  · simp [he]

theorem genLoop_notAllEmpty (svc : Nat → CallOutcome) (t c : Str) :
    ∀ (attempts : List Nat) (tr : Trace),
      allEmptyB (genLoop svc t c attempts tr).1 = false := by
  intro attempts
  induction attempts with
  | nil => intro tr; exact allEmptyB_fallback t c
  | cons a rest ih =>
    intro tr
    cases hsvc : svc a with
    | ok resp =>
      rw [genLoop_cons_ok svc t c a rest tr resp hsvc]
      by_cases hae : allEmptyB (parse_content (cleanGen resp)) = true
      · rw [if_pos hae]
        exact allEmptyB_fallback t c
      · rw [if_neg hae]
        dsimp only
        exact Bool.eq_false_iff.mpr hae
    | exn msg =>
      rw [genLoop_cons_exn svc t c a rest tr msg hsvc]
      by_cases hrl : isRateLimit msg = true
      · rw [if_pos hrl]
        by_cases hre : rest.isEmpty = true
        · rw [if_pos hre]
          exact allEmptyB_fallback t c
        · rw [if_neg hre]
          exact ih _
      · rw [if_neg hrl]
        exact allEmptyB_fallback t c

theorem allEmptyB_eq_false_iff (x : Content) :
    allEmptyB x = false ↔
      (x.instagram ≠ [] ∨ x.blog ≠ [] ∨ x.youtube ≠ [] ∨ x.thumbnail ≠ []) := by
  unfold allEmptyB
  rcases x with ⟨i, b, y, n⟩
  dsimp only
  constructor
  · intro h
    rcases i with _ | _ <;> rcases b with _ | _ <;> rcases y with _ | _
      <;> rcases n with _ | _ <;> simp_all
  · intro h
    rcases i with _ | _ <;> rcases b with _ | _ <;> rcases y with _ | _
      <;> rcases n with _ | _ <;> simp_all

/-- C4: for every trend/category pair with a relevant category and every
service behaviour, `generate_content` yields a bundle with at least one
non-empty section; and when the service succeeds but the parsed response
has all four sections empty, the deterministic fallback bundle is
returned instead. -/
theorem generate_total_nonempty (svc : Nat → CallOutcome) (t c : Str)
    (hc : c ≠ labelNR) :
    ((generate_content svc t c).1.instagram ≠ [] ∨ (generate_content svc t c).1.blog ≠ []
      ∨ (generate_content svc t c).1.youtube ≠ []
      ∨ (generate_content svc t c).1.thumbnail ≠ [])
    ∧ (∀ resp : Str, t ≠ [] → svc 0 = .ok resp →
        allEmptyB (parse_content (cleanGen resp)) = true →
        (generate_content svc t c).1 = get_fallback_content t c) := by
  constructor
  · rw [← allEmptyB_eq_false_iff]
    unfold generate_content
    by_cases hg : (t.isEmpty || decide (c = labelNR)) = true
    · rw [if_pos hg]
      exact allEmptyB_fallback t c
    · rw [if_neg hg]
      exact genLoop_notAllEmpty svc t c (List.range 3) ⟨0, 0⟩
  · intro resp ht hok hall
    unfold generate_content
    rw [if_neg (by simp [ht, hc]), range_three]
    rw [genLoop_cons_ok svc t c 0 [1, 2] ⟨0, 0⟩ resp hok, if_pos hall]

/-- Witness for C4: a service returning a section-free response on a
relevant item yields the (non-empty) fallback bundle. -/
theorem generate_total_nonempty_witness :
    ((generate_content svcEmptyResp exRes labelRes).1.instagram ≠ []
      ∨ (generate_content svcEmptyResp exRes labelRes).1.blog ≠ []
      ∨ (generate_content svcEmptyResp exRes labelRes).1.youtube ≠ []
      ∨ (generate_content svcEmptyResp exRes labelRes).1.thumbnail ≠ [])
    ∧ (generate_content svcEmptyResp exRes labelRes).1
        = get_fallback_content exRes labelRes :=
  ⟨(generate_total_nonempty svcEmptyResp exRes labelRes (by decide)).1,
   (generate_total_nonempty svcEmptyResp exRes labelRes (by decide)).2
     (("nothing structured here").toList) (by decide) rfl (by decide)⟩

/-! ## C6: no external calls on irrelevant or empty input -/

/-- C6: `generate_content` with the `Not Relevant` label, or with an
empty trend, makes zero calls to the external service (and zero sleeps)
and returns the fallback bundle directly. -/
theorem generate_skip_irrelevant :
    (∀ (svc : Nat → CallOutcome) (t : Str),
      generate_content svc t labelNR = (get_fallback_content t labelNR, ⟨0, 0⟩))
    ∧ (∀ (svc : Nat → CallOutcome) (c : Str),
      generate_content svc [] c = (get_fallback_content [] c, ⟨0, 0⟩)) := by
  constructor
  · intro svc t
    unfold generate_content
    rw [if_pos (by simp)]
  · intro svc c
    unfold generate_content
    rw [if_pos (by simp)]

/-! ## Orchestrator statistics algebra -/

theorem addState_init_left (x : RunState) : addState initRunState x = x := by
  rcases x with ⟨p, r, sk, er, res⟩
  simp [addState, initRunState]

theorem addState_init_right (x : RunState) : addState x initRunState = x := by
  rcases x with ⟨p, r, sk, er, res⟩
  simp [addState, initRunState]

theorem addState_assoc (a b c : RunState) :
    addState (addState a b) c = addState a (addState b c) := by
  rcases a with ⟨p1, r1, s1, e1, l1⟩
  rcases b with ⟨p2, r2, s2, e2, l2⟩
  rcases c with ⟨p3, r3, s3, e3, l3⟩
  simp [addState, Nat.add_assoc]

/-- One loop iteration adds the item's own contribution to the incoming
statistics — this additivity is exactly the "one item's outcome never
disturbs the accounting of the others" property of the loop. -/
theorem stepItem_eq_add (cat : Str → Except Str Str) (gen : Str → Str → Except Str Content)
    (save : Row → Except Str Bool) (st : RunState) (trend : Str) :
    stepItem cat gen save st trend = addState st (itemStats cat gen save trend) := by
  rcases st with ⟨p, r, sk, er, res⟩
  unfold itemStats stepItem initRunState
  cases cat trend with
  | error e => simp [addState]
  | ok category =>
    dsimp only
    by_cases hc : category = labelNR
    · rw [if_neg (by simp [hc]), if_neg (by simp [hc])]
      simp [addState]
    · rw [if_pos hc, if_pos hc]
      rcases hgen : gen trend category with e | content
      · simp only [hgen]
        simp [addState]
      · simp only [hgen]
        rcases hsave : save (mkRow trend category content) with e | b
        · simp [addState]
        · cases b <;> simp [addState]

theorem runLoop_eq_add (cat : Str → Except Str Str) (gen : Str → Str → Except Str Content)
    (save : Row → Except Str Bool) :
    ∀ (l : List Str) (st : RunState),
      runLoop cat gen save st l
        = addState st (runLoop cat gen save initRunState l) := by
  intro l
  induction l with
  | nil => intro st; exact (addState_init_right st).symm
  | cons t ts ih =>
    intro st
    have h1 : runLoop cat gen save st (t :: ts)
        = runLoop cat gen save (stepItem cat gen save st t) ts := rfl
    have h2 : runLoop cat gen save initRunState (t :: ts)
        = runLoop cat gen save (stepItem cat gen save initRunState t) ts := rfl
    rw [h1, h2, ih (stepItem cat gen save st t),
        ih (stepItem cat gen save initRunState t),
        stepItem_eq_add cat gen save st t,
        stepItem_eq_add cat gen save initRunState t,
        addState_init_left, addState_assoc]

theorem runLoop_append (cat : Str → Except Str Str) (gen : Str → Str → Except Str Content)
    (save : Row → Except Str Bool) (pre post : List Str) (bad : Str) :
    runLoop cat gen save initRunState (pre ++ bad :: post)
      = addState (addState (runLoop cat gen save initRunState pre)
          (itemStats cat gen save bad))
          (runLoop cat gen save initRunState post) := by
  have h0 : runLoop cat gen save initRunState (pre ++ bad :: post)
      = runLoop cat gen save
          (stepItem cat gen save (runLoop cat gen save initRunState pre) bad) post := by
    unfold runLoop
    rw [List.foldl_append]
    rfl
  rw [h0, runLoop_eq_add cat gen save post, stepItem_eq_add]

/-! ## C7: run-level resilience -/

/-- An item whose processing fails: its classification raises, or its
generation raises, or its store append raises or returns `false`
(duplicate / write failure), contributes exactly one error. -/
theorem itemStats_errors_of_bad (cat : Str → Except Str Str)
    (gen : Str → Str → Except Str Content) (save : Row → Except Str Bool) (bad : Str)
    (hbad : (∃ e, cat bad = .error e)
      ∨ (∃ category, cat bad = .ok category ∧ category ≠ labelNR ∧
          ((∃ e, gen bad category = .error e)
            ∨ (∃ content, gen bad category = .ok content ∧
                (save (mkRow bad category content) = .ok false
                  ∨ ∃ e, save (mkRow bad category content) = .error e))))) :
    (itemStats cat gen save bad).errors = 1 := by
  unfold itemStats stepItem initRunState
  rcases hbad with ⟨e, he⟩ | ⟨category, hcat, hne, hrest⟩
  · simp [he]
  · simp only [hcat]
    rw [if_pos hne]
    rcases hrest with ⟨e, hg⟩ | ⟨content, hg, hs⟩
    · simp [hg]
    · simp only [hg]
      rcases hs with hs | ⟨e, hs⟩
      · simp [hs]
      · simp [hs]

/-- C7: a single item's failure never aborts the run.  If one item `bad`
in the batch fails — its classification or generation raises, or its
store append raises or reports a duplicate or write failure (`false`) —
then the whole loop still runs to completion: the final summary counts
at least one error, and every statistic of the final state is exactly
the sum of the contributions of the items before `bad`, of `bad`
itself, and of the items after `bad`, which are all still processed. -/
theorem run_loop_resilient (cat : Str → Except Str Str)
    (gen : Str → Str → Except Str Content) (save : Row → Except Str Bool)
    (pre post : List Str) (bad : Str)
    (hbad : (∃ e, cat bad = .error e)
      ∨ (∃ category, cat bad = .ok category ∧ category ≠ labelNR ∧
          ((∃ e, gen bad category = .error e)
            ∨ (∃ content, gen bad category = .ok content ∧
                (save (mkRow bad category content) = .ok false
                  ∨ ∃ e, save (mkRow bad category content) = .error e))))) :
    1 ≤ (runLoop cat gen save initRunState (pre ++ bad :: post)).errors
    ∧ (runLoop cat gen save initRunState (pre ++ bad :: post)).processed
        = (runLoop cat gen save initRunState pre).processed
          + (itemStats cat gen save bad).processed
          + (runLoop cat gen save initRunState post).processed
    ∧ (runLoop cat gen save initRunState (pre ++ bad :: post)).skipped
        = (runLoop cat gen save initRunState pre).skipped
          + (itemStats cat gen save bad).skipped
          + (runLoop cat gen save initRunState post).skipped
    ∧ (runLoop cat gen save initRunState (pre ++ bad :: post)).results.length
        = (runLoop cat gen save initRunState pre).results.length
          + (itemStats cat gen save bad).results.length
          + (runLoop cat gen save initRunState post).results.length := by
  have hd := runLoop_append cat gen save pre post bad
  have herr := itemStats_errors_of_bad cat gen save bad hbad
  rw [hd]
  refine ⟨?_, ?_, ?_, ?_⟩
  · simp only [addState, herr]
    omega
  · simp only [addState]
  · simp only [addState]
  · simp only [addState, List.length_append]

/-- Witness for C7: a batch whose middle item is relevant but whose
store append reports `false`. -/
theorem run_loop_resilient_witness :
    1 ≤ (runLoop catOracle genOracle saveFalse initRunState
          ([exNR] ++ exJN :: [exRes])).errors :=
  (run_loop_resilient catOracle genOracle saveFalse [exNR] [exRes] exJN
    (Or.inr ⟨fallback_categorize exJN, rfl, by decide,
      Or.inr ⟨get_fallback_content exJN (fallback_categorize exJN), rfl,
        Or.inl rfl⟩⟩)).1

/-! ## C8: batch cap -/

theorem itemStats_processed_le (cat : Str → Except Str Str)
    (gen : Str → Str → Except Str Content) (save : Row → Except Str Bool) (t : Str) :
    (itemStats cat gen save t).processed ≤ 1 := by
  unfold itemStats stepItem initRunState
  cases cat t with
  | error e => simp
  | ok category =>
    dsimp only
    by_cases hc : category = labelNR
    · rw [if_neg (by simp [hc])]
    · rw [if_pos hc]
      rcases hgen : gen t category with e | content
      · simp [hgen]
      · simp only [hgen]
        rcases hsave : save (mkRow t category content) with e | b
        · simp
        · cases b <;> simp

theorem stepItem_processed_le (cat : Str → Except Str Str)
    (gen : Str → Str → Except Str Content) (save : Row → Except Str Bool)
    (st : RunState) (t : Str) :
    (stepItem cat gen save st t).processed ≤ st.processed + 1 := by
  rw [stepItem_eq_add]
  have := itemStats_processed_le cat gen save t
  simp only [addState]
  omega

theorem runLoop_processed_le (cat : Str → Except Str Str)
    (gen : Str → Str → Except Str Content) (save : Row → Except Str Bool) :
    ∀ (l : List Str) (st : RunState),
      (runLoop cat gen save st l).processed ≤ st.processed + l.length := by
  intro l
  induction l with
  | nil =>
    intro st
    simp [runLoop]
  | cons t ts ih =>
    intro st
    have h1 : runLoop cat gen save st (t :: ts)
        = runLoop cat gen save (stepItem cat gen save st t) ts := rfl
    rw [h1]
    have h2 := ih (stepItem cat gen save st t)
    have h3 := stepItem_processed_le cat gen save st t
    simp only [List.length_cons]
    omega

/-- C8: one run processes at most the configured batch size of items —
`run_ai_agent` runs the loop on exactly the first `BATCH_SIZE = 3`
trends, and its final `processed` count never exceeds 3, whatever the
trend source returned (e.g. 20 items). -/
theorem batch_cap (cat : Str → Except Str Str)
    (gen : Str → Str → Except Str Content) (save : Row → Except Str Bool)
    (trends : List Str) :
    run_ai_agent cat gen save trends
      = runLoop cat gen save initRunState (trends.take 3)
    ∧ (run_ai_agent cat gen save trends).processed ≤ 3 := by
  refine ⟨rfl, ?_⟩
  have h := runLoop_processed_le cat gen save (trends.take 3) initRunState
  have h2 : (trends.take 3).length ≤ 3 := by
    rw [List.length_take]
    exact min_le_left _ _
  have h3 : initRunState.processed = 0 := rfl
  show (runLoop cat gen save initRunState (trends.take 3)).processed ≤ 3
  omega

/-! ## C10: run statistics invariants -/

theorem itemStats_pure (cat : Str → Str) (gen : Str → Str → Content)
    (save : Row → Bool) (t : Str) :
    (itemStats (fun x => Except.ok (cat x)) (fun x c => Except.ok (gen x c))
        (fun r => Except.ok (save r)) t).processed
      = (itemStats (fun x => Except.ok (cat x)) (fun x c => Except.ok (gen x c))
          (fun r => Except.ok (save r)) t).relevant
        + (itemStats (fun x => Except.ok (cat x)) (fun x c => Except.ok (gen x c))
            (fun r => Except.ok (save r)) t).skipped
    ∧ (itemStats (fun x => Except.ok (cat x)) (fun x c => Except.ok (gen x c))
        (fun r => Except.ok (save r)) t).relevant
      = (itemStats (fun x => Except.ok (cat x)) (fun x c => Except.ok (gen x c))
          (fun r => Except.ok (save r)) t).results.length
        + (itemStats (fun x => Except.ok (cat x)) (fun x c => Except.ok (gen x c))
            (fun r => Except.ok (save r)) t).errors := by
  unfold itemStats stepItem initRunState
  dsimp only
  by_cases hc : cat t = labelNR
  · rw [if_neg (by simp [hc])]
    simp
  · rw [if_pos hc]
    cases save (mkRow t (cat t) (gen t (cat t))) <;> simp

theorem runLoop_pure_invariant (cat : Str → Str) (gen : Str → Str → Content)
    (save : Row → Bool) :
    ∀ l : List Str,
      (runLoop (fun x => Except.ok (cat x)) (fun x c => Except.ok (gen x c))
          (fun r => Except.ok (save r)) initRunState l).processed
        = (runLoop (fun x => Except.ok (cat x)) (fun x c => Except.ok (gen x c))
            (fun r => Except.ok (save r)) initRunState l).relevant
          + (runLoop (fun x => Except.ok (cat x)) (fun x c => Except.ok (gen x c))
              (fun r => Except.ok (save r)) initRunState l).skipped
      ∧ (runLoop (fun x => Except.ok (cat x)) (fun x c => Except.ok (gen x c))
          (fun r => Except.ok (save r)) initRunState l).relevant
        = (runLoop (fun x => Except.ok (cat x)) (fun x c => Except.ok (gen x c))
            (fun r => Except.ok (save r)) initRunState l).results.length
          + (runLoop (fun x => Except.ok (cat x)) (fun x c => Except.ok (gen x c))
              (fun r => Except.ok (save r)) initRunState l).errors := by
  intro l
  induction l with
  | nil => exact ⟨rfl, rfl⟩
  | cons t ts ih =>
    have h1 : runLoop (fun x => Except.ok (cat x)) (fun x c => Except.ok (gen x c))
        (fun r => Except.ok (save r)) initRunState (t :: ts)
        = addState (itemStats (fun x => Except.ok (cat x)) (fun x c => Except.ok (gen x c))
            (fun r => Except.ok (save r)) t)
            (runLoop (fun x => Except.ok (cat x)) (fun x c => Except.ok (gen x c))
              (fun r => Except.ok (save r)) initRunState ts) := by
      show runLoop _ _ _ (stepItem _ _ _ initRunState t) ts = _
      rw [runLoop_eq_add, stepItem_eq_add, addState_init_left]
    rw [h1]
    obtain ⟨hit1, hit2⟩ := itemStats_pure cat gen save t
    obtain ⟨ih1, ih2⟩ := ih
    constructor
    · simp only [addState]
      omega
    · simp only [addState, List.length_append]
      omega

/-- C10: in an exception-free run (all collaborators return normally),
the final statistics satisfy `processed = relevant + skipped` and
`relevant = saved + errors` (every relevant item is either saved or
counted as an error), hence `saved ≤ relevant ≤ processed ≤ 3`. -/
theorem run_stats_invariant (cat : Str → Str) (gen : Str → Str → Content)
    (save : Row → Bool) (trends : List Str) :
    (run_ai_agent (fun t => Except.ok (cat t)) (fun t c => Except.ok (gen t c))
        (fun r => Except.ok (save r)) trends).processed
      = (run_ai_agent (fun t => Except.ok (cat t)) (fun t c => Except.ok (gen t c))
          (fun r => Except.ok (save r)) trends).relevant
        + (run_ai_agent (fun t => Except.ok (cat t)) (fun t c => Except.ok (gen t c))
            (fun r => Except.ok (save r)) trends).skipped
    ∧ (run_ai_agent (fun t => Except.ok (cat t)) (fun t c => Except.ok (gen t c))
        (fun r => Except.ok (save r)) trends).relevant
      = (run_ai_agent (fun t => Except.ok (cat t)) (fun t c => Except.ok (gen t c))
          (fun r => Except.ok (save r)) trends).results.length
        + (run_ai_agent (fun t => Except.ok (cat t)) (fun t c => Except.ok (gen t c))
            (fun r => Except.ok (save r)) trends).errors
    ∧ (run_ai_agent (fun t => Except.ok (cat t)) (fun t c => Except.ok (gen t c))
        (fun r => Except.ok (save r)) trends).results.length
      ≤ (run_ai_agent (fun t => Except.ok (cat t)) (fun t c => Except.ok (gen t c))
          (fun r => Except.ok (save r)) trends).relevant
    ∧ (run_ai_agent (fun t => Except.ok (cat t)) (fun t c => Except.ok (gen t c))
        (fun r => Except.ok (save r)) trends).relevant
      ≤ (run_ai_agent (fun t => Except.ok (cat t)) (fun t c => Except.ok (gen t c))
          (fun r => Except.ok (save r)) trends).processed
    ∧ (run_ai_agent (fun t => Except.ok (cat t)) (fun t c => Except.ok (gen t c))
        (fun r => Except.ok (save r)) trends).processed ≤ 3 := by
  unfold run_ai_agent BATCH_SIZE
  obtain ⟨h1, h2⟩ := runLoop_pure_invariant cat gen save (trends.take 3)
  have hle := runLoop_processed_le (fun t => Except.ok (cat t))
    (fun t c => Except.ok (gen t c)) (fun r => Except.ok (save r))
    (trends.take 3) initRunState
  have h2' : (trends.take 3).length ≤ 3 := by
    rw [List.length_take]
    exact min_le_left _ _
  have h3 : initRunState.processed = 0 := rfl
  refine ⟨h1, h2, ?_, ?_, ?_⟩ <;> show _ ≤ _ <;> omega

/-! ## C9: record store append -/

/-- C9: `add_row` always returns a boolean (every fallible operation
inside it is caught and mapped to `false`), where `false` signals a
detected duplicate or a write failure.  Duplicate detection is exact
text equality on the trend string: appending a record whose trend
exactly equals an already-stored trend returns `false`; a write failure
returns `false`; and two records with different trend texts are both
appended as distinct rows. -/
theorem add_row_spec :
    (∀ (io : StoreIO) (ts : Str) (st : StoreState) (d : Row),
      (st.csv.map Row.trend).contains d.trend = true →
      (st.sheet = none ∨ ∃ l, st.sheet = some l ∧ l.contains d.trend = true) →
      (add_row io ts st d).1 = false)
    ∧ (∀ (ts : Str) (csv : List Row) (d : Row),
      (csv.map Row.trend).contains d.trend = false →
      (add_row ⟨true, true, true⟩ ts ⟨csv, none⟩ d).1 = true
        ∧ (add_row ⟨true, true, true⟩ ts ⟨csv, none⟩ d).2.csv
            = csv ++ [{ d with timestamp := ts }])
    ∧ (∀ (ts : Str) (st : StoreState) (d : Row),
      st.sheet = none → (add_row ⟨true, false, true⟩ ts st d).1 = false)
    ∧ (∀ (ts1 ts2 : Str) (csv : List Row) (d1 d2 : Row),
      (csv.map Row.trend).contains d1.trend = false →
      (csv.map Row.trend).contains d2.trend = false →
      d1.trend ≠ d2.trend →
      (add_row ⟨true, true, true⟩ ts2
          (add_row ⟨true, true, true⟩ ts1 ⟨csv, none⟩ d1).2 d2).1 = true
        ∧ (add_row ⟨true, true, true⟩ ts2
            (add_row ⟨true, true, true⟩ ts1 ⟨csv, none⟩ d1).2 d2).2.csv
            = csv ++ [{ d1 with timestamp := ts1 }, { d2 with timestamp := ts2 }]) := by
  refine ⟨?_, ?_, ?_, ?_⟩
  · rintro ⟨ro, wo, ao⟩ ts ⟨csv, sheet⟩ d hdup hsheet
    unfold add_row add_to_csv add_to_sheets
    dsimp only
    rcases hsheet with hs | ⟨l, hs, hl⟩
    · subst hs
      cases ro <;> simp_all
    · subst hs
      cases ro <;> cases ao <;> simp_all
  · intro ts csv d hdup
    have hdup' : ¬ ∃ a ∈ csv, a.trend = d.trend := by simpa using hdup
    unfold add_row add_to_csv add_to_sheets
    constructor
    · simp [hdup']
    · simp [hdup']
  · rintro ts ⟨csv, sheet⟩ d hs
    subst hs
    unfold add_row add_to_csv add_to_sheets
    by_cases hdup : ∃ a ∈ csv, a.trend = d.trend
    · simp [hdup]
    · simp [hdup]
  · intro ts1 ts2 csv d1 d2 h1 h2 hne
    have h1' : ¬ ∃ a ∈ csv, a.trend = d1.trend := by simpa using h1
    have h2x : ¬ ∃ a ∈ csv, a.trend = d2.trend := by simpa using h2
    have hfst : (add_row ⟨true, true, true⟩ ts1 ⟨csv, none⟩ d1).2
        = ⟨csv ++ [{ d1 with timestamp := ts1 }], none⟩ := by
      unfold add_row add_to_csv add_to_sheets
      simp [h1']
    rw [hfst]
    have hne' : ¬ d2.trend = d1.trend := fun hh => hne hh.symm
    unfold add_row add_to_csv add_to_sheets
    constructor
    · simp [h2x, hne']
    · simp [h2x, hne']

/-- Witness for C9: a duplicate append returns `false`; a fresh append
returns `true`; two differently worded trends are stored as two rows. -/
theorem add_row_spec_witness :
    (add_row ⟨true, true, true⟩ [] ⟨[rowA], none⟩ rowA).1 = false
    ∧ (add_row ⟨true, true, true⟩ [] ⟨[], none⟩ rowA).1 = true
    ∧ (add_row ⟨true, false, true⟩ [] ⟨[], none⟩ rowA).1 = false
    ∧ (add_row ⟨true, true, true⟩ []
        (add_row ⟨true, true, true⟩ [] ⟨[], none⟩ rowA).2 rowB).2.csv
        = [{ rowA with timestamp := [] }, { rowB with timestamp := [] }] :=
  ⟨add_row_spec.1 ⟨true, true, true⟩ [] ⟨[rowA], none⟩ rowA (by decide) (Or.inl rfl),
   (add_row_spec.2.1 [] [] rowA (by decide)).1,
   add_row_spec.2.2.1 [] ⟨[], none⟩ rowA rfl,
   (add_row_spec.2.2.2 [] [] [] rowA rowB (by decide) (by decide) (by decide)).2⟩

/-! ## C5: parsing round-trip -/

theorem getSec_setSec (k : SecKey) (v : Str) (c : Content) :
    getSec k (setSec k v c) = v := by
  cases k <;> rfl

theorem setSec_setSec (k : SecKey) (v w : Str) (c : Content) :
    setSec k v (setSec k w c) = setSec k v c := by
  cases k <;> rfl

theorem setSec_getSec_self (k : SecKey) (c : Content) :
    setSec k (getSec k c) c = c := by
  cases k <;> rfl

/-- A line recognised as a section header switches the current section
and seeds it with the stripped inline remainder when non-empty. -/
theorem parseStep_header (cur : Option SecKey) (c : Content) (l : Str)
    (k : SecKey) (rest : Str) (h : findHeader (pyStrip l) = some (k, rest)) :
    parseStep (cur, c) l
      = (some k, if (pyStrip rest).isEmpty then c else setSec k (pyStrip rest) c) := by
  simp only [parseStep, h]

/-- A non-header line while section `k` is active: empty and separator
lines are skipped, other lines are space-joined onto section `k`. -/
theorem parseStep_body (k : SecKey) (c : Content) (l : Str)
    (h : findHeader (pyStrip l) = none) :
    parseStep (some k, c) l
      = (some k,
          if (pyStrip l).isEmpty then c
          else if sepLine (pyStrip l) then c
          else setSec k (joinAcc (getSec k c) (pyStrip l)) c) := by
  simp only [parseStep, h]
  split_ifs <;> rfl

theorem foldBody_cons_empty (acc l : Str) (ls : List Str)
    (h : (pyStrip l).isEmpty = true) :
    foldBody acc (l :: ls) = foldBody acc ls := by
  simp only [foldBody]
  rw [if_pos h]

theorem foldBody_cons_sep (acc l : Str) (ls : List Str)
    (h1 : ¬(pyStrip l).isEmpty = true) (h2 : sepLine (pyStrip l) = true) :
    foldBody acc (l :: ls) = foldBody acc ls := by
  simp only [foldBody]
  rw [if_neg h1, if_pos h2]

theorem foldBody_cons_content (acc l : Str) (ls : List Str)
    (h1 : ¬(pyStrip l).isEmpty = true) (h2 : ¬sepLine (pyStrip l) = true) :
    foldBody acc (l :: ls) = foldBody (joinAcc acc (pyStrip l)) ls := by
  simp only [foldBody]
  rw [if_neg h1, if_neg h2]

/-- Scanning a run of non-header lines with section `k` active
accumulates exactly `foldBody` of them onto section `k`. -/
theorem foldl_parseStep_body (k : SecKey) :
    ∀ (body : List Str) (c : Content),
      (∀ l ∈ body, findHeader (pyStrip l) = none) →
      List.foldl parseStep (some k, c) body
        = (some k, setSec k (foldBody (getSec k c) body) c) := by
  intro body
  induction body with
  | nil =>
    intro c _
    rw [List.foldl_nil, foldBody, setSec_getSec_self]
  | cons l ls ih =>
    intro c hall
    have hl := hall l (List.mem_cons_self l ls)
    have hls : ∀ x ∈ ls, findHeader (pyStrip x) = none :=
      fun x hx => hall x (List.mem_cons_of_mem l hx)
    rw [List.foldl_cons, parseStep_body k c l hl]
    by_cases he : (pyStrip l).isEmpty = true
    · rw [if_pos he, ih c hls, foldBody_cons_empty _ _ _ he]
    · rw [if_neg he]
      by_cases hs : sepLine (pyStrip l) = true
      · rw [if_pos hs, ih c hls, foldBody_cons_sep _ _ _ he hs]
      · rw [if_neg hs, ih _ hls, foldBody_cons_content _ _ _ he hs,
            getSec_setSec, setSec_setSec]

/-- Seeding a fresh (empty) section with inline content is `setSec` of
the stripped inline remainder, whether or not it is empty. -/
theorem header_set_uniform (k : SecKey) (a : Str) (c : Content)
    (h : getSec k c = []) :
    (if (pyStrip a).isEmpty then c else setSec k (pyStrip a) c)
      = setSec k (pyStrip a) c := by
  by_cases hh : (pyStrip a).isEmpty = true
  · rw [if_pos hh]
    have ha : pyStrip a = [] := by simpa [List.isEmpty_iff] using hh
    rw [ha, ← h, setSec_getSec_self]
  · rw [if_neg hh]

theorem replaceTokFuel_id (tok : Str) :
    ∀ (fuel : Nat) (s : Str), containsTok tok s = false →
      replaceTokFuel tok fuel s = s := by
  intro fuel
  induction fuel with
  | zero => intro s _; rfl
  | succ n ih =>
    intro s h
    cases s with
    | nil => rfl
    | cons c cs =>
      have h' : tok.isPrefixOf (c :: cs) = false ∧ containsTok tok cs = false := by
        simpa [containsTok] using h
      simp only [replaceTokFuel, h'.1, Bool.false_and, if_false]
      rw [ih cs h'.2]
      simp

/-- Replacement `s.replace(tok, '')` is the identity when `tok` does not occur. -/
theorem replaceTok_id (tok s : Str) (h : containsTok tok s = false) :
    replaceTok tok s = s :=
  replaceTokFuel_id tok s.length s h

/-- The per-section cleanup is the identity on already-stripped text
containing no header token. -/
theorem cleanSec_id (e : Str) (hstrip : pyStrip e = e)
    (hno : ∀ tok ∈ headerToks, containsTok tok e = false) :
    cleanSec e = e := by
  have n1 : containsTok hdrIG e = false := hno hdrIG (by simp [headerToks])
  have n2 : containsTok hdrBL e = false := hno hdrBL (by simp [headerToks])
  have n3 : containsTok hdrYT e = false := hno hdrYT (by simp [headerToks])
  have n4 : containsTok hdrTN e = false := hno hdrTN (by simp [headerToks])
  unfold cleanSec headerToks
  simp only [List.foldl_cons, List.foldl_nil]
  rw [hstrip, replaceTok_id _ _ n1, hstrip, replaceTok_id _ _ n2, hstrip,
      replaceTok_id _ _ n3, hstrip, replaceTok_id _ _ n4, hstrip]

theorem getSec_empty (k : SecKey) : getSec k emptyContent = [] := by
  cases k <;> rfl

theorem getSec_setSec_ne (k k' : SecKey) (v : Str) (c : Content) (h : k ≠ k') :
    getSec k (setSec k' v c) = getSec k c := by
  cases k <;> cases k' <;> first | rfl | exact absurd rfl h

/-- Projection of the per-section cleanup phase of `parse_content`. -/
theorem getSec_cleanEach (k : SecKey) (c : Content) :
    getSec k
      (⟨cleanSec (getSec SecKey.instagram c), cleanSec (getSec SecKey.blog c),
        cleanSec (getSec SecKey.youtube c), cleanSec (getSec SecKey.thumbnail c)⟩
        : Content)
      = cleanSec (getSec k c) := by
  cases k <;> simp only [getSec]

/-- Scanning one whole section — its header line followed by its body
lines — from any state in which section `k` is still untouched sets
section `k` to the accumulated text and leaves everything else alone. -/
theorem foldl_parseStep_segment (cur : Option SecKey) (c : Content) (k : SecKey)
    (hl : Str) (b : List Str) (inl : Str)
    (hh : findHeader (pyStrip hl) = some (k, inl))
    (hb : ∀ l ∈ b, findHeader (pyStrip l) = none)
    (hz : getSec k c = []) :
    List.foldl parseStep (cur, c) (hl :: b)
      = (some k, setSec k (foldBody (pyStrip inl) b) c) := by
  rw [List.foldl_cons, parseStep_header cur c hl k inl hh,
      header_set_uniform k inl c hz,
      foldl_parseStep_body k b _ hb, getSec_setSec, setSec_setSec]

/-- C5: parsing round-trip.  For every completion response string whose
lines consist of the four section header lines in any order (each
matched case-insensitively by `findHeader`, optionally carrying inline
content), each followed by its run of body lines none of which is
itself a header line, `parse_content` returns a bundle in which each of
the four sections equals that section's accumulated text — the stripped
inline remainder and the stripped non-empty, non-separator-prefixed
body lines space-joined (`foldBody`) — passed through the cleanup phase
`cleanSec`, which trims the result and strips residual header tokens
from the body. -/
theorem parse_content_roundtrip
    (s : Str) (k1 k2 k3 k4 : SecKey) (hl1 hl2 hl3 hl4 : Str)
    (b1 b2 b3 b4 : List Str) (inl1 inl2 inl3 inl4 : Str) (e1 e2 e3 e4 : Str)
    (hk21 : k2 ≠ k1) (hk31 : k3 ≠ k1) (hk32 : k3 ≠ k2)
    (hk41 : k4 ≠ k1) (hk42 : k4 ≠ k2) (hk43 : k4 ≠ k3)
    (hsplit : splitLines s
      = hl1 :: (b1 ++ hl2 :: (b2 ++ hl3 :: (b3 ++ hl4 :: b4))))
    (hh1 : findHeader (pyStrip hl1) = some (k1, inl1))
    (hh2 : findHeader (pyStrip hl2) = some (k2, inl2))
    (hh3 : findHeader (pyStrip hl3) = some (k3, inl3))
    (hh4 : findHeader (pyStrip hl4) = some (k4, inl4))
    (hb1 : ∀ l ∈ b1, findHeader (pyStrip l) = none)
    (hb2 : ∀ l ∈ b2, findHeader (pyStrip l) = none)
    (hb3 : ∀ l ∈ b3, findHeader (pyStrip l) = none)
    (hb4 : ∀ l ∈ b4, findHeader (pyStrip l) = none)
    (he1 : foldBody (pyStrip inl1) b1 = e1)
    (he2 : foldBody (pyStrip inl2) b2 = e2)
    (he3 : foldBody (pyStrip inl3) b3 = e3)
    (he4 : foldBody (pyStrip inl4) b4 = e4) :
    getSec k1 (parse_content s) = cleanSec e1
    ∧ getSec k2 (parse_content s) = cleanSec e2
    ∧ getSec k3 (parse_content s) = cleanSec e3
    ∧ getSec k4 (parse_content s) = cleanSec e4 := by
  have hz2 : getSec k2 (setSec k1 e1 emptyContent) = [] := by
    rw [getSec_setSec_ne k2 k1 _ _ hk21, getSec_empty]
  have hz3 : getSec k3 (setSec k2 e2 (setSec k1 e1 emptyContent)) = [] := by
    rw [getSec_setSec_ne k3 k2 _ _ hk32, getSec_setSec_ne k3 k1 _ _ hk31,
        getSec_empty]
  have hz4 : getSec k4 (setSec k3 e3 (setSec k2 e2 (setSec k1 e1 emptyContent)))
      = [] := by
    rw [getSec_setSec_ne k4 k3 _ _ hk43, getSec_setSec_ne k4 k2 _ _ hk42,
        getSec_setSec_ne k4 k1 _ _ hk41, getSec_empty]
  have hmain : ((splitLines s).foldl parseStep (none, emptyContent)).2
      = setSec k4 e4 (setSec k3 e3 (setSec k2 e2 (setSec k1 e1 emptyContent))) := by
    rw [hsplit]
    rw [show hl1 :: (b1 ++ hl2 :: (b2 ++ hl3 :: (b3 ++ hl4 :: b4)))
        = (hl1 :: b1) ++ (hl2 :: b2) ++ (hl3 :: b3) ++ (hl4 :: b4) from by
      simp [List.append_assoc]]
    rw [List.foldl_append, List.foldl_append, List.foldl_append]
    rw [foldl_parseStep_segment none emptyContent k1 hl1 b1 inl1 hh1 hb1
          (getSec_empty k1), he1]
    rw [foldl_parseStep_segment (some k1) (setSec k1 e1 emptyContent) k2 hl2 b2
          inl2 hh2 hb2 hz2, he2]
    rw [foldl_parseStep_segment (some k2) (setSec k2 e2 (setSec k1 e1 emptyContent))
          k3 hl3 b3 inl3 hh3 hb3 hz3, he3]
    rw [foldl_parseStep_segment (some k3)
          (setSec k3 e3 (setSec k2 e2 (setSec k1 e1 emptyContent)))
          k4 hl4 b4 inl4 hh4 hb4 hz4, he4]
  have hpc : parse_content s
      = ⟨cleanSec (getSec SecKey.instagram
            (setSec k4 e4 (setSec k3 e3 (setSec k2 e2 (setSec k1 e1 emptyContent))))),
         cleanSec (getSec SecKey.blog
            (setSec k4 e4 (setSec k3 e3 (setSec k2 e2 (setSec k1 e1 emptyContent))))),
         cleanSec (getSec SecKey.youtube
            (setSec k4 e4 (setSec k3 e3 (setSec k2 e2 (setSec k1 e1 emptyContent))))),
         cleanSec (getSec SecKey.thumbnail
            (setSec k4 e4 (setSec k3 e3 (setSec k2 e2 (setSec k1 e1 emptyContent)))))⟩ := by
    simp only [parse_content]
    rw [hmain]
    rfl
  refine ⟨?_, ?_, ?_, ?_⟩
  · rw [hpc, getSec_cleanEach, getSec_setSec_ne k1 k4 _ _ (Ne.symm hk41),
        getSec_setSec_ne k1 k3 _ _ (Ne.symm hk31),
        getSec_setSec_ne k1 k2 _ _ (Ne.symm hk21), getSec_setSec]
  · rw [hpc, getSec_cleanEach, getSec_setSec_ne k2 k4 _ _ (Ne.symm hk42),
        getSec_setSec_ne k2 k3 _ _ (Ne.symm hk32), getSec_setSec]
  · rw [hpc, getSec_cleanEach, getSec_setSec_ne k3 k4 _ _ (Ne.symm hk43),
        getSec_setSec]
  · rw [hpc, getSec_cleanEach, getSec_setSec]

/-- Witness for C5 at a concrete synthetic response: sections appear in
a non-prompted order (youtube, thumbnail, instagram, blog), with inline
content, separator lines, and an instagram body line carrying an
embedded `BLOG_DRAFT:` token that the cleanup phase strips from the
accumulated text. -/
theorem parse_content_roundtrip_witness :
    getSec SecKey.youtube (parse_content c5resp) = ("Hook line").toList
    ∧ getSec SecKey.thumbnail (parse_content c5resp) = ("Bold yellow banner").toList
    ∧ getSec SecKey.instagram (parse_content c5resp) = ("hello see  note").toList
    ∧ getSec SecKey.blog (parse_content c5resp)
        = ("The details follow. Read carefully.").toList := by
  obtain ⟨h1, h2, h3, h4⟩ := parse_content_roundtrip c5resp
    SecKey.youtube SecKey.thumbnail SecKey.instagram SecKey.blog
    (("YOUTUBE_SCRIPT: Hook line").toList) (("THUMBNAIL_IDEA:").toList)
    (("INSTAGRAM_POST: hello").toList) (("BLOG_DRAFT:").toList)
    [("===").toList]
    [("Bold yellow banner").toList]
    [("see BLOG_DRAFT: note").toList, ("---").toList]
    [("The details follow.").toList, ("Read carefully.").toList]
    ((" Hook line").toList) ([] : Str) ((" hello").toList) ([] : Str)
    (("Hook line").toList) (("Bold yellow banner").toList)
    (("hello see BLOG_DRAFT: note").toList)
    (("The details follow. Read carefully.").toList)
    (by decide) (by decide) (by decide) (by decide) (by decide) (by decide)
    (by decide)
    (by decide) (by decide) (by decide) (by decide)
    (by decide) (by decide) (by decide) (by decide)
    (by decide) (by decide) (by decide) (by decide)
  exact ⟨h1.trans (by decide), h2.trans (by decide), h3.trans (by decide),
    h4.trans (by decide)⟩

end Agent
